import Mathlib

set_option autoImplicit false
set_option maxHeartbeats 1000000

/-
Verification development for the exdir object-model core
(src/exdir/core/exdir_object.py and src/exdir/core/dataset.py).

The embedding models:
  * the filesystem as a finite set of directories plus a finite map from
    paths to file data, where a path is the list of its components below
    the filesystem root (so `os.path.dirname` drops the last component and
    the filesystem root is `[]`);
  * the structured-text (YAML) codec: a stored file is either text that
    parses to a `Yaml` value or text on which `yaml.safe_load` raises;
  * Python runtime behaviour of the operators the source uses on parsed
    values (`in`, subscripting, `==`), including the `TypeError`s Python
    raises when `in` or `[]` is applied to a non-container;
  * fallible Python functions as `Except PyErr _`.
-/

namespace Exdir

/-- Values produced by the external structured-text codec (PyYAML
`safe_load`).  Mapping keys are modelled as strings, which covers every key
the core reads or writes. -/
inductive Yaml where
  | nil
  | int (n : Int)
  | str (s : String)
  | list (xs : List Yaml)
  | map (entries : List (String × Yaml))

/-- Python exceptions that the modelled code can raise.  `fileExists`
stands for `FileExistsError`/`IOError("... already exists")` (the spec's
AlreadyExists/TypeConflict), `valueErrorInvalidType` for the invalid
typename `ValueError` (InvalidType), `readOnly` for the read-only
`IOError` (ReadOnlyViolation), `scalarLength`/`scalarIteration` for the
two scalar `TypeError`s (ScalarLengthError/ScalarIterationError), and
`pluginMissing` for the missing-plugin `Exception` (PluginUnavailable),
carrying the plugin name and the dataset name it reports. -/
inductive PyErr where
  | fileExists
  | valueErrorInvalidType
  | yamlError
  | typeError
  | keyError
  | fileNotFound
  | isADirectory
  | invalidName
  | indexError
  | readOnly
  | attributeError
  | scalarLength
  | scalarIteration
  | pluginMissing (plugin : String) (dataset : String)
deriving DecidableEq

/-- Python `y == s` for a parsed value `y` and a string literal `s`:
true only when `y` is the equal string. -/
def yamlEqStr (y : Yaml) (s : String) : Bool :=
  match y with
  | .str t => t == s
  | _ => false

/-- Python `key in y` for a parsed value `y`.  On a string it is substring
containment, on a list membership (string equality against elements), on a
dict key containment; on `None` or an int Python raises `TypeError`
(argument not iterable). -/
def pyContains (key : String) (y : Yaml) : Except PyErr Bool :=
  match y with
  | .str s => .ok (decide ((s.splitOn key).length ≥ 2))
  | .list xs => .ok (xs.any (fun e => yamlEqStr e key))
  | .map xs => .ok (xs.any (fun kv => kv.1 == key))
  | .int _ => .error .typeError
  | .nil => .error .typeError

/-- Python `y[key]` for a parsed value `y` and a string key: dict lookup
(`KeyError` when absent); on a string, list, int or `None`, subscripting by
a string raises `TypeError`. -/
def pySubscript (y : Yaml) (key : String) : Except PyErr Yaml :=
  match y with
  | .map xs =>
    match xs.find? (fun kv => kv.1 == key) with
    | some kv => .ok kv.2
    | none => .error .keyError
  | _ => .error .typeError

/-- Whether a parsed value is a Python dict (`isinstance(y, dict)`). -/
def Yaml.isMap : Yaml → Bool
  | .map _ => true
  | _ => false

/-- An absolute path, as the list of its components below the filesystem
root; `os.path.dirname` is `List.dropLast` and the root is `[]`. -/
abbrev Path := List String

/-- The stored content of a file, as seen through the structured-text
codec: either text that parses to `y`, or text on which the parser
raises. -/
inductive FileData where
  | parsed (y : Yaml)
  | malformed

/-- A snapshot of the filesystem: the set of existing directories and the
existing files with their contents. -/
structure FS where
  dirs : List Path
  files : List (Path × FileData)

/-- `os.path.isdir`. -/
def FS.isDir (fs : FS) (p : Path) : Bool := fs.dirs.contains p

/-- Content of the file at `p`, when a file exists there. -/
def FS.findFile (fs : FS) (p : Path) : Option FileData :=
  (fs.files.find? (fun kv => kv.1 == p)).map (fun kv => kv.2)

/-- Whether a file exists at `p`. -/
def FS.hasFile (fs : FS) (p : Path) : Bool := (fs.findFile p).isSome

/-- `os.path.exists`: a directory or a file at `p`. -/
def FS.pathExists (fs : FS) (p : Path) : Bool := fs.isDir p || fs.hasFile p

/-- `os.mkdir`. -/
def FS.mkdir (fs : FS) (p : Path) : FS := { fs with dirs := p :: fs.dirs }

/-- Writing a file (`open(p, "w")` followed by a dump of `c`). -/
def FS.setFile (fs : FS) (p : Path) (c : FileData) : FS :=
  { fs with files := (p, c) :: fs.files.filter (fun kv => !(kv.1 == p)) }

-- metadata keys and filenames (module-level constants of exdir_object.py)
def EXDIR_METANAME : String := "exdir"
def TYPE_METANAME : String := "type"
def VERSION_METANAME : String := "version"
def META_FILENAME : String := "exdir.yaml"
def DATASET_TYPENAME : String := "dataset"
def GROUP_TYPENAME : String := "group"
def FILE_TYPENAME : String := "file"

/-- The `valid_types` list built inside `_create_object_directory` and
`is_nonraw_object_directory`. -/
def VALID_TYPENAMES : List String := [DATASET_TYPENAME, FILE_TYPENAME, GROUP_TYPENAME]

/-- `_metafile_from_directory`: `os.path.join(directory, META_FILENAME)`. -/
def _metafile_from_directory (directory : Path) : Path := directory ++ [META_FILENAME]

/-- `_create_object_directory(directory, typename)`: raises when the
directory already exists, then when the typename is invalid; otherwise
makes the directory and dumps the metadata record
`{exdir: {type: typename, version: 1}}` (safe_dump sorts keys, so `type`
precedes `version`). -/
def _create_object_directory (fs : FS) (directory : Path) (typename : String) :
    Except PyErr FS :=
  if fs.pathExists directory then .error .fileExists
  else if !(VALID_TYPENAMES.contains typename) then .error .valueErrorInvalidType
  else
    let metadata : Yaml := .map [(EXDIR_METANAME, .map
        [(TYPE_METANAME, .str typename), (VERSION_METANAME, .int 1)])]
    .ok ((fs.mkdir directory).setFile (_metafile_from_directory directory)
          (.parsed metadata))

/-- `is_exdir_object(directory)`: `os.path.isdir(directory)`. -/
def is_exdir_object (fs : FS) (directory : Path) : Bool := fs.isDir directory

/-- The checks `is_nonraw_object_directory` runs on the parsed meta file
content (source lines 74-84): a non-dict parse returns `False`; a dict
without the `exdir` key returns `False`; then
`TYPE_METANAME not in meta_data[EXDIR_METANAME]` applies Python `in` to an
arbitrary value, which can raise `TypeError`, as can the final subscript
`meta_data[EXDIR_METANAME][TYPE_METANAME]`; otherwise the result is
membership of the recorded type in `valid_types`. -/
def metaClassify (meta_data : Yaml) : Except PyErr Bool :=
  match meta_data with
  | .map entries =>
    if !(entries.any (fun kv => kv.1 == EXDIR_METANAME)) then .ok false
    else
      match pySubscript (.map entries) EXDIR_METANAME with
      | .error e => .error e
      | .ok exdirVal =>
        match pyContains TYPE_METANAME exdirVal with
        | .error e => .error e
        | .ok false => .ok false
        | .ok true =>
          match pySubscript exdirVal TYPE_METANAME with
          | .error e => .error e
          | .ok tVal => .ok (VALID_TYPENAMES.any (fun t => yamlEqStr tVal t))
  | _ => .ok false

/-- `is_nonraw_object_directory(directory)`: missing meta file returns
`False`; opening and parsing the meta file propagates the parser's
exception on malformed text (the source has no handler around
`yaml.safe_load`); the parsed content is then classified by the checks of
`metaClassify`.  The `isADirectory` branch models `open` on a path that
exists but is a directory, not a file. -/
def is_nonraw_object_directory (fs : FS) (directory : Path) : Except PyErr Bool :=
  let meta_filename := directory ++ [META_FILENAME]
  if !(fs.pathExists meta_filename) then .ok false
  else
    match fs.findFile meta_filename with
    | none => .error .isADirectory
    | some .malformed => .error .yamlError
    | some (.parsed meta_data) => metaClassify meta_data

/-- `is_raw_object_directory(directory)`:
`is_exdir_object(directory) and not is_nonraw_object_directory(directory)`,
with Python short-circuit evaluation of `and`. -/
def is_raw_object_directory (fs : FS) (directory : Path) : Except PyErr Bool :=
  if is_exdir_object fs directory then
    (is_nonraw_object_directory fs directory).map (fun b => !b)
  else .ok false

/-- The record the source checks for is a mapping whose `exdir` entry is a
mapping carrying a `type` entry drawn from `valid_types`. -/
def wellFormedMeta : Yaml → Bool
  | .map entries =>
    match entries.find? (fun kv => kv.1 == EXDIR_METANAME) with
    | some kv =>
      match kv.2 with
      | .map inner =>
        match inner.find? (fun kv2 => kv2.1 == TYPE_METANAME) with
        | some kv2 => VALID_TYPENAMES.any (fun t => yamlEqStr kv2.2 t)
        | none => false
      | _ => false
    | none => false
  | _ => false

/-- Outcome of one iteration of the `root_directory` while-loop body
(source lines 102-120) at the current path: the loop either stops with the
current path (`found = True`), moves on to the parent directory, or lets
an exception escape. -/
inductive StepR where
  | stop
  | pass
  | err (e : PyErr)
deriving DecidableEq

/-- One iteration of the `root_directory` loop body.  `valid` is computed
by `is_nonraw_object_directory` (whose exceptions escape); when valid, the
meta file is re-opened and re-parsed with `yaml.load`, the `exdir` and
`type` checks are repeated (each `continue`s to the parent when it fails),
and the loop stops when the recorded type equals `"file"`. -/
def rootStep (fs : FS) (p : Path) : StepR :=
  match is_nonraw_object_directory fs p with
  | .error e => .err e
  | .ok false => .pass
  | .ok true =>
    match fs.findFile (p ++ [META_FILENAME]) with
    | none => .err .fileNotFound
    | some .malformed => .err .yamlError
    | some (.parsed meta_data) =>
      match pyContains EXDIR_METANAME meta_data with
      | .error e => .err e
      | .ok false => .pass
      | .ok true =>
        match pySubscript meta_data EXDIR_METANAME with
        | .error e => .err e
        | .ok exdir_meta =>
          match pyContains TYPE_METANAME exdir_meta with
          | .error e => .err e
          | .ok false => .pass
          | .ok true =>
            match pySubscript exdir_meta TYPE_METANAME with
            | .error e => .err e
            | .ok tVal => if yamlEqStr tVal FILE_TYPENAME then .stop else .pass

/-- `root_directory(path)`: iterate upward; at each step first test
whether the parent equals the current path (`os.path.dirname(path) ==
path`, i.e. the filesystem root `[]`) and report not-found, otherwise run
the loop body and either stop with the current path, recurse on the
parent, or propagate the exception. -/
def root_directory (fs : FS) (p : Path) : Except PyErr (Option Path) :=
  if h : p = [] then .ok none
  else
    match rootStep fs p with
    | .stop => .ok (some p)
    | .pass => root_directory fs p.dropLast
    | .err e => .error e
termination_by p.length
decreasing_by
  have hp : 0 < p.length := List.length_pos.mpr h
  simp [List.length_dropLast]
  omega

/-- `Object.OpenMode`. -/
inductive OpenMode where
  | READ_WRITE
  | READ_ONLY
deriving DecidableEq

/-- The `Object` base class state: `root_directory`, `parent_path`,
`object_name` and `io_mode` as in the source constructor.  The
`validate` field is modelled from the spec: the filename_validation
policies (spec section 4.1) live in a module outside src/, so an object
carries an abstract name-validation predicate; `_assert_valid_name` calls
it as `container.validate_name(container.directory, name)` and raises
(InvalidName) when it rejects. -/
structure Object where
  root_directory : Path
  parent_path : Path
  object_name : String
  io_mode : OpenMode
  validate : Path → String → Bool

/-- `self.relative_path = os.path.join(self.parent_path, self.object_name)`. -/
def Object.relative_path (o : Object) : Path := o.parent_path ++ [o.object_name]

/-- `self.directory = os.path.join(self.root_directory, self.relative_path)`. -/
def Object.directory (o : Object) : Path := o.root_directory ++ o.relative_path

/-- The `Raw` handle returned by `create_raw`: a `Raw` object constructed
as `raw.Raw(root_directory, parent_path, object_name, io_mode)`, whose
directory derives from those fields exactly as for `Object`. -/
structure Raw where
  root_directory : Path
  parent_path : Path
  object_name : String
  io_mode : OpenMode
deriving DecidableEq

/-- The directory a `Raw` handle is bound to. -/
def Raw.directory (r : Raw) : Path := r.root_directory ++ (r.parent_path ++ [r.object_name])

/-- `Object.create_raw(name)`: validate the name, raise if the target
directory `os.path.join(self.directory, name)` exists, make it, and
return `raw.Raw(self.root_directory, self.parent_path, name, io_mode)` —
note the source passes `self.parent_path` (not `self.relative_path`) as
the new handle's parent path. -/
def create_raw (fs : FS) (o : Object) (name : String) : Except PyErr (FS × Raw) :=
  if !(o.validate o.directory name) then .error .invalidName
  else
    let directory_name := o.directory ++ [name]
    if fs.pathExists directory_name then .error .fileExists
    else
      .ok (fs.mkdir directory_name,
           { root_directory := o.root_directory, parent_path := o.parent_path,
             object_name := name, io_mode := o.io_mode })

/-- What `require_raw` returns: a `Raw` handle (from the `create_raw`
branch) or, in the directory-already-exists branch, the plain directory
path `directory_name` that the source returns there. -/
inductive RawResult where
  | handle (r : Raw)
  | path (p : Path)
deriving DecidableEq

/-- `Object.require_raw(name)`: when the target directory exists, raise if
it is a managed (non-raw) object, otherwise return `directory_name`
itself; when it does not exist, delegate to `create_raw`. -/
def require_raw (fs : FS) (o : Object) (name : String) : Except PyErr (FS × RawResult) :=
  let directory_name := o.directory ++ [name]
  if fs.pathExists directory_name then
    match is_nonraw_object_directory fs directory_name with
    | .error e => .error e
    | .ok true => .error .fileExists
    | .ok false => .ok (fs, .path directory_name)
  else
    match create_raw fs o name with
    | .error e => .error e
    | .ok fr => .ok (fr.1, .handle fr.2)

/-- An array element: numpy cells the model needs (integers, and strings
for 0-d string arrays produced by `np.asarray` on text). -/
inductive Elem where
  | int (n : Int)
  | str (s : String)
deriving DecidableEq

/-- A numpy ndarray: a shape and its cells flattened in row-major
(C) order, so `data.length = shape.prod`. -/
structure NDArray where
  shape : List Nat
  data : List Elem
deriving DecidableEq

/-- A Python value flowing through the dataset write pipeline: a scalar
number, a tuple of numbers, a text string, or an ndarray — the cases
`_prepare_write`'s `isinstance(data, (numbers.Number, tuple, str))` test
distinguishes from an already-converted array. -/
inductive PyValue where
  | num (n : Int)
  | tup (xs : List Int)
  | txt (s : String)
  | arr (a : NDArray)
deriving DecidableEq

/-- `np.asarray(data, order="C")` on the value kinds above. -/
def asarray : PyValue → NDArray
  | .num n => { shape := [], data := [.int n] }
  | .tup xs => { shape := [xs.length], data := xs.map Elem.int }
  | .txt s => { shape := [], data := [.str s] }
  | .arr a => a

/-- `isinstance(data, (numbers.Number, tuple, str))`. -/
def PyValue.isScalarTupleStr : PyValue → Bool
  | .num _ => true
  | .tup _ => true
  | .txt _ => true
  | .arr _ => false

/-- Python attribute access `value.shape`: only ndarrays carry it; on a
number, tuple or string it raises `AttributeError` (modelled as `none`). -/
def PyValue.shapeAttr : PyValue → Option (List Nat)
  | .arr a => some a.shape
  | _ => none

/-- The per-plugin write-time metadata dict returned by `prepare_write`:
the `required` flag the source reads, plus the rest of the record. -/
structure PluginMeta where
  required : Bool
  payload : List (String × Yaml)

/-- A dataset transform plugin: an identifier, a write hook returning
`(data, plugin_attrs, plugin_meta)`, and a read hook taking the value and
the attribute mapping. -/
structure Plugin where
  IDENTIFIER : String
  prepare_write : PyValue → PyValue × List (String × Yaml) × PluginMeta
  prepare_read : PyValue → List (String × Yaml) → PyValue

/-- Python dict assignment `d[k] = v` on an association list: replace the
value at an existing key in place, otherwise append the new entry. -/
def assocSet {α : Type} (xs : List (String × α)) (k : String) (v : α) :
    List (String × α) :=
  if xs.any (fun kv => kv.1 == k) then
    xs.map (fun kv => if kv.1 == k then (k, v) else kv)
  else xs ++ [(k, v)]

/-- Python `dict.update`: each key of `upd` is assigned into `old` in
order; existing keys of `old` not mentioned in `upd` are kept. -/
def assocUpdate {α : Type} (old upd : List (String × α)) : List (String × α) :=
  upd.foldl (fun acc kv => assocSet acc kv.1 kv.2) old

/-- Python `k in d` for an association-list dict. -/
def assocHasKey {α : Type} (xs : List (String × α)) (k : String) : Bool :=
  xs.any (fun kv => kv.1 == k)

/-- The `for plugin in dataset_plugins` loop of `_prepare_write`, with the
`attrs` and `meta` dict accumulators: each plugin rewrites the data,
`attrs.update(plugin_attrs)` merges its attributes, and
`meta[plugin.IDENTIFIER] = plugin_meta` records its metadata only when
`plugin_meta["required"]` holds. -/
def prepLoop (plugins : List Plugin) (data : PyValue)
    (attrs : List (String × Yaml)) (meta : List (String × PluginMeta)) :
    PyValue × List (String × Yaml) × List (String × PluginMeta) :=
  match plugins with
  | [] => (data, attrs, meta)
  | plugin :: rest =>
    let r := plugin.prepare_write data
    prepLoop rest r.1 (assocUpdate attrs r.2.1)
      (if r.2.2.required then assocSet meta plugin.IDENTIFIER r.2.2 else meta)

/-- `_prepare_write(data)`: run the plugin loop starting from empty
`attrs`/`meta` dicts, then — after the loop — convert the data with
`np.asarray(data, order="C")` if it is still a number, tuple or string. -/
def _prepare_write (plugins : List Plugin) (data : PyValue) :
    PyValue × List (String × Yaml) × List (String × PluginMeta) :=
  let r := prepLoop plugins data [] []
  if r.1.isScalarTupleStr then (.arr (asarray r.1), r.2.1, r.2.2) else r

/-- Just the data component threaded through the plugins' write hooks, in
registration order; used to state where the scalar normalization sits
relative to the pipeline. -/
def pipelineValue : List Plugin → PyValue → PyValue
  | [], v => v
  | p :: ps, v => pipelineValue ps (p.prepare_write v).1

/-- Modelled from the spec: the normalization step as section 4.5 words it
— "scalar/tuple/text inputs are normalized to a row-major array". -/
def normalizeScalar (v : PyValue) : PyValue :=
  if v.isScalarTupleStr then .arr (asarray v) else v

/-- Modelled from the spec: a `_prepare_write` variant that follows the
spec's claimed ordering, normalizing the scalar/tuple/text input "before
the first plugin sees" it; kept for comparison with the source order. -/
def _prepare_write_normFirst (plugins : List Plugin) (data : PyValue) :
    PyValue × List (String × Yaml) × List (String × PluginMeta) :=
  prepLoop plugins (normalizeScalar data) [] []

/-- Whether some plugin of the registry, at its stage of the write
pipeline on input `v`, has identifier `k` and reports `required = true` —
exactly the identifiers `_prepare_write` records into its `meta` dict. -/
def pluginWrites (plugins : List Plugin) (v : PyValue) (k : String) : Bool :=
  match plugins with
  | [] => false
  | p :: ps =>
    let r := p.prepare_write v
    ((p.IDENTIFIER == k) && r.2.2.required) || pluginWrites ps r.1 k

/-- The state of one dataset handle and its backing directory.  Modelled
from the spec for the parts outside src/: `attrs` and `metaPlugins` stand
for the attribute sidecar and the `plugins` entry of the metadata sidecar,
reached through the Attribute accessor of section 4.4 (`attrs.update`
merges, `meta["plugins"] = m` replaces that entry wholesale).  `payload`
is the `data.npy` array content seen through the lazily-created memory
map (one handle, so file and map coincide between operations), and
`payloadGen` counts how many times `np.save` has replaced the payload
file, to state file-identity claims. -/
structure DState where
  name : String
  io_mode : OpenMode
  attrs : List (String × Yaml)
  metaPlugins : List (String × PluginMeta)
  payload : NDArray
  payloadGen : Nat

/-- A selector (`args` of `__getitem__`/`__setitem__`): the full-range
slice `[:]`, a first-axis index `[i]`, or a two-axis index `[i, j]` — the
forms the spec's scenarios use. -/
inductive Sel where
  | all
  | idx (i : Nat)
  | pair (i j : Nat)
deriving DecidableEq

/-- numpy `a[i]` on the first axis: for a rank >= 1 array, the subarray of
shape `rest` at row-major offset `i * rest.prod`; out of bounds (or rank
0) raises `IndexError` (`none`). -/
def NDArray.selectIdx (a : NDArray) (i : Nat) : Option NDArray :=
  match a.shape with
  | [] => none
  | d :: rest =>
    if i < d then
      some { shape := rest, data := (a.data.drop (i * rest.prod)).take rest.prod }
    else none

/-- numpy read indexing for the modelled selectors (`a[:]` is invalid on a
rank-0 array; `a[i, j]` is `a[i]` then `[j]`). -/
def arraySelect (a : NDArray) : Sel → Option NDArray
  | .all => match a.shape with
    | [] => none
    | _ => some a
  | .idx i => a.selectIdx i
  | .pair i j => (a.selectIdx i).bind (fun b => b.selectIdx j)

/-- Row-major offset, length and shape of the region a selector addresses
for writing. -/
def regionOf (a : NDArray) : Sel → Option (Nat × Nat × List Nat)
  | .all => match a.shape with
    | [] => none
    | _ => some (0, a.shape.prod, a.shape)
  | .idx i => match a.shape with
    | [] => none
    | d :: rest => if i < d then some (i * rest.prod, rest.prod, rest) else none
  | .pair i j => match a.shape with
    | [] => none
    | [_] => none
    | d1 :: d2 :: rest =>
      if i < d1 then
        if j < d2 then some (i * (d2 :: rest).prod + j * rest.prod, rest.prod, rest)
        else none
      else none

/-- numpy in-place assignment `a[sel] = v`: the value must match the
region's shape (or be a scalar, which broadcasts); failure raises
(`none`). -/
def arraySet (a : NDArray) (sel : Sel) (v : NDArray) : Option NDArray :=
  match regionOf a sel with
  | none => none
  | some r =>
    if v.shape == r.2.2 then
      some { shape := a.shape,
             data := a.data.take r.1 ++ v.data ++ a.data.drop (r.1 + r.2.1) }
    else if v.shape == ([] : List Nat) then
      some { shape := a.shape,
             data := a.data.take r.1 ++ List.replicate r.2.1 (v.data.headD (.int 0))
                     ++ a.data.drop (r.1 + r.2.1) }
    else none

/-- The selection stage of `Dataset.__getitem__` (lines 56-59): a
zero-dimensional payload ignores the selector and yields the whole array,
otherwise the selector is applied to the mapped array. -/
def selectStep (st : DState) (sel : Sel) : Except PyErr PyValue :=
  if st.payload.shape = [] then .ok (.arr st.payload)
  else
    match arraySelect st.payload sel with
    | some a => .ok (.arr a)
    | none => .error .indexError

/-- The plugin-availability check of `Dataset.__getitem__` (lines 61-67):
the first key of `meta["plugins"]` that is not among the enabled plugin
identifiers raises, naming that plugin and the dataset. -/
def pluginCheckStep (plugins : List Plugin) (st : DState) : Option PyErr :=
  let enabled := plugins.map (fun p => p.IDENTIFIER)
  match st.metaPlugins.find? (fun kv => !(enabled.contains kv.1)) with
  | some kv => some (.pluginMissing kv.1 st.name)
  | none => none

/-- `Dataset.__getitem__`: select, check recorded plugins are enabled,
then fold every registered plugin's `prepare_read` over the value with the
attribute mapping. -/
def dataset_getitem (plugins : List Plugin) (st : DState) (sel : Sel) :
    Except PyErr PyValue :=
  match selectStep st sel with
  | .error e => .error e
  | .ok values =>
    match pluginCheckStep plugins st with
    | some e => .error e
    | none => .ok (plugins.foldl (fun v p => p.prepare_read v st.attrs) values)

/-- `Dataset.__setitem__`: raise on READ_ONLY before anything else; run
`_prepare_write`; `attrs.update(attrs)` then `meta["plugins"] = meta`;
finally assign `self._data[args] = value` in place (its `IndexError`
escapes after the sidecar updates). -/
def dataset_setitem (plugins : List Plugin) (st : DState) (sel : Sel)
    (value : PyValue) : DState × Option PyErr :=
  if st.io_mode = .READ_ONLY then (st, some .readOnly)
  else
    let r := _prepare_write plugins value
    let st2 := { st with attrs := assocUpdate st.attrs r.2.1, metaPlugins := r.2.2 }
    match arraySet st2.payload sel (asarray r.1) with
    | some p2 => ({ st2 with payload := p2 }, none)
    | none => (st2, some .indexError)

/-- `Dataset._reset_data(value)`: run `_prepare_write`, `np.save` the
data (replacing the payload file, hence the generation bump), merge the
contributed attributes, replace `meta["plugins"]`, and remap. -/
def _reset_data (plugins : List Plugin) (st : DState) (value : PyValue) :
    DState × Option PyErr :=
  let r := _prepare_write plugins value
  ({ st with payload := asarray r.1, payloadGen := st.payloadGen + 1,
             attrs := assocUpdate st.attrs r.2.1, metaPlugins := r.2.2 }, none)

/-- The `value` property setter: when the incoming value's `shape`
attribute differs from the mapped array's shape, rewrite the payload from
scratch via `_reset_data`; otherwise delegate to `self[:] = value`. -/
def dataset_value_set (plugins : List Plugin) (st : DState) (value : PyValue) :
    DState × Option PyErr :=
  match value.shapeAttr with
  | none => (st, some .attributeError)
  | some vshape =>
    if st.payload.shape ≠ vshape then _reset_data plugins st value
    else dataset_setitem plugins st .all value

/-- The `shape` property: `self[:].shape` — a full-range read through the
plugin pipeline, then the `shape` attribute of the result. -/
def dataset_shape (plugins : List Plugin) (st : DState) : Except PyErr (List Nat) :=
  match dataset_getitem plugins st .all with
  | .error e => .error e
  | .ok v =>
    match v.shapeAttr with
    | none => .error .attributeError
    | some s => .ok s

/-- `Dataset.__len__`: `TypeError` on a scalar dataset, otherwise the
first-axis extent of `self.shape`. -/
def dataset_len (plugins : List Plugin) (st : DState) : Except PyErr Nat :=
  match dataset_shape plugins st with
  | .error e => .error e
  | .ok [] => .error .scalarLength
  | .ok (n :: _) => .ok n

/-- `Dataset.__iter__`: `TypeError` on a scalar dataset, otherwise one
independent read `self[i]` per index of the first axis (the generator's
reads, listed with each read's own outcome). -/
def dataset_iter (plugins : List Plugin) (st : DState) :
    Except PyErr (List (Except PyErr PyValue)) :=
  match dataset_shape plugins st with
  | .error e => .error e
  | .ok [] => .error .scalarIteration
  | .ok (n :: _) => .ok ((List.range n).map (fun i => dataset_getitem plugins st (.idx i)))

/-
Helper lemmas.
-/

theorem pathExists_of_findFile {fs : FS} {p : Path} {fd : FileData}
    (h : fs.findFile p = some fd) : fs.pathExists p = true := by
  simp [FS.pathExists, FS.hasFile, h]

theorem is_nonraw_eq_of_parsed {fs : FS} {d : Path} {y : Yaml}
    (h : fs.findFile (d ++ [META_FILENAME]) = some (.parsed y)) :
    is_nonraw_object_directory fs d = metaClassify y := by
  have hex : fs.pathExists (d ++ [META_FILENAME]) = true := pathExists_of_findFile h
  simp only [is_nonraw_object_directory, hex, Bool.not_true, Bool.false_eq_true,
    if_false, h]

theorem is_nonraw_eq_of_malformed {fs : FS} {d : Path}
    (h : fs.findFile (d ++ [META_FILENAME]) = some .malformed) :
    is_nonraw_object_directory fs d = .error .yamlError := by
  have hex : fs.pathExists (d ++ [META_FILENAME]) = true := pathExists_of_findFile h
  simp only [is_nonraw_object_directory, hex, Bool.not_true, Bool.false_eq_true,
    if_false, h]

theorem is_nonraw_eq_of_no_file {fs : FS} {d : Path}
    (h : fs.findFile (d ++ [META_FILENAME]) = none) :
    is_nonraw_object_directory fs d =
      (if fs.isDir (d ++ [META_FILENAME]) then .error .isADirectory else .ok false) := by
  cases hdir : fs.isDir (d ++ [META_FILENAME]) <;>
    simp [is_nonraw_object_directory, FS.pathExists, FS.hasFile, h, hdir]

theorem metaClassify_true_iff (y : Yaml) :
    metaClassify y = .ok true ↔ wellFormedMeta y = true := by
  cases y with
  | map entries =>
    simp only [metaClassify, wellFormedMeta]
    cases hfind : entries.find? (fun kv => kv.1 == EXDIR_METANAME) with
    | none =>
      have hany : entries.any (fun kv => kv.1 == EXDIR_METANAME) = false := by
        rw [Bool.eq_false_iff]
        intro hne
        obtain ⟨kv, hmem, hkv⟩ := List.any_eq_true.mp hne
        exact absurd hkv (List.find?_eq_none.mp hfind kv hmem)
      simp [hany]
    | some kv =>
      have hany : entries.any (fun kv => kv.1 == EXDIR_METANAME) = true := by
        have h1 := List.mem_of_find?_eq_some hfind
        have h2 := List.find?_some hfind
        exact List.any_eq_true.mpr ⟨kv, h1, h2⟩
      obtain ⟨k1, v1⟩ := kv
      simp only [hany, Bool.not_true, Bool.false_eq_true, if_false, pySubscript, hfind]
      cases v1 with
      | nil => simp [pyContains]
      | int n => simp [pyContains]
      | str s =>
        cases hc : decide ((s.splitOn TYPE_METANAME).length ≥ 2) <;>
          simp [pyContains, hc]
      | list xs =>
        cases hc : xs.any (fun e => yamlEqStr e TYPE_METANAME) <;>
          simp [pyContains, hc]
      | map inner =>
        cases hfind2 : inner.find? (fun kv2 => kv2.1 == TYPE_METANAME) with
        | none =>
          have hany2 : inner.any (fun kv2 => kv2.1 == TYPE_METANAME) = false := by
            rw [Bool.eq_false_iff]
            intro hne
            obtain ⟨kv2, hmem, hkv⟩ := List.any_eq_true.mp hne
            exact absurd hkv (List.find?_eq_none.mp hfind2 kv2 hmem)
          simp [pyContains, hany2, hfind2]
        | some kv2 =>
          have hany2 : inner.any (fun kv2 => kv2.1 == TYPE_METANAME) = true := by
            have h1 := List.mem_of_find?_eq_some hfind2
            have h2 := List.find?_some hfind2
            exact List.any_eq_true.mpr ⟨kv2, h1, h2⟩
          simp [pyContains, pySubscript, hany2, hfind2]
  | nil => simp [metaClassify, wellFormedMeta]
  | int n => simp [metaClassify, wellFormedMeta]
  | str s => simp [metaClassify, wellFormedMeta]
  | list xs => simp [metaClassify, wellFormedMeta]

/-
C1.
-/

/-- C1 (amended): `is_nonraw_object_directory` returns true exactly for a
metadata file that parses to a mapping whose `exdir` entry is a mapping
with a `type` entry in the closed set; it returns false — without raising
— when the metadata file is absent, when the parse result is not a
mapping, or when the parsed mapping lacks the `exdir` key, and it never
raises while the `exdir` entry is itself a mapping; but (contrary to the
original claim, see the counterexample) unparsable text propagates the
parser's exception, and a non-mapping `exdir` value can raise a
`TypeError` from Python `in`/`[]`. -/
theorem C1_is_nonraw_classification (fs : FS) (d : Path) :
    (is_nonraw_object_directory fs d = .ok true ↔
      (∃ y, fs.findFile (d ++ [META_FILENAME]) = some (.parsed y) ∧
        wellFormedMeta y = true)) ∧
    (fs.pathExists (d ++ [META_FILENAME]) = false →
      is_nonraw_object_directory fs d = .ok false) ∧
    (∀ y, fs.findFile (d ++ [META_FILENAME]) = some (.parsed y) → y.isMap = false →
      is_nonraw_object_directory fs d = .ok false) ∧
    (∀ entries, fs.findFile (d ++ [META_FILENAME]) = some (.parsed (.map entries)) →
      entries.find? (fun kv => kv.1 == EXDIR_METANAME) = none →
      is_nonraw_object_directory fs d = .ok false) ∧
    (∀ entries kv inner,
      fs.findFile (d ++ [META_FILENAME]) = some (.parsed (.map entries)) →
      entries.find? (fun kv => kv.1 == EXDIR_METANAME) = some kv →
      kv.2 = .map inner →
      ∃ b, is_nonraw_object_directory fs d = .ok b) ∧
    (fs.findFile (d ++ [META_FILENAME]) = some .malformed →
      is_nonraw_object_directory fs d = .error .yamlError) := by
  refine ⟨?_, ?_, ?_, ?_, ?_, ?_⟩
  · cases hf : fs.findFile (d ++ [META_FILENAME]) with
    | none =>
      rw [is_nonraw_eq_of_no_file hf]
      cases hdir : fs.isDir (d ++ [META_FILENAME]) <;> simp [hdir, hf]
    | some fd =>
      cases fd with
      | malformed => rw [is_nonraw_eq_of_malformed hf]; simp [hf]
      | parsed y => rw [is_nonraw_eq_of_parsed hf]; simp [hf, metaClassify_true_iff]
  · intro h
    simp [is_nonraw_object_directory, h]
  · intro y hf hnm
    rw [is_nonraw_eq_of_parsed hf]
    cases y <;> simp_all [metaClassify, Yaml.isMap]
  · intro entries hf hfind
    rw [is_nonraw_eq_of_parsed hf]
    have hany : entries.any (fun kv => kv.1 == EXDIR_METANAME) = false := by
      rw [Bool.eq_false_iff]
      intro hne
      obtain ⟨kv, hmem, hkv⟩ := List.any_eq_true.mp hne
      exact absurd hkv (List.find?_eq_none.mp hfind kv hmem)
    simp [metaClassify, hany]
  · intro entries kv inner hf hfind hmapv
    rw [is_nonraw_eq_of_parsed hf]
    have hany : entries.any (fun kv => kv.1 == EXDIR_METANAME) = true := by
      have h1 := List.mem_of_find?_eq_some hfind
      have h2 := List.find?_some hfind
      exact List.any_eq_true.mpr ⟨kv, h1, h2⟩
    simp only [metaClassify, hany, Bool.not_true, Bool.false_eq_true, if_false,
      pySubscript, hfind, hmapv]
    cases hfind2 : inner.find? (fun kv2 => kv2.1 == TYPE_METANAME) with
    | none =>
      have hany2 : inner.any (fun kv2 => kv2.1 == TYPE_METANAME) = false := by
        rw [Bool.eq_false_iff]
        intro hne
        obtain ⟨kv2, hmem, hkv⟩ := List.any_eq_true.mp hne
        exact absurd hkv (List.find?_eq_none.mp hfind2 kv2 hmem)
      exact ⟨false, by simp [pyContains, hany2]⟩
    | some kv2 =>
      have hany2 : inner.any (fun kv2 => kv2.1 == TYPE_METANAME) = true := by
        have h1 := List.mem_of_find?_eq_some hfind2
        have h2 := List.find?_some hfind2
        exact List.any_eq_true.mpr ⟨kv2, h1, h2⟩
      exact ⟨VALID_TYPENAMES.any (fun t => yamlEqStr kv2.2 t),
        by simp [pyContains, pySubscript, hany2, hfind2]⟩
  · intro hf
    exact is_nonraw_eq_of_malformed hf

/-- Filesystem for the C1 counterexample: the meta file of `d` parses
fine, to the mapping with `exdir` bound to the integer 5 — malformed
content in the claim's sense (no `type` key anywhere). -/
def fsC1 : FS :=
  { dirs := [["d"]],
    files := [(["d", "exdir.yaml"], .parsed (.map [("exdir", .int 5)]))] }

/-- C1 counterexample: on a directory whose metadata content is malformed
(`{exdir: 5}` — the `type` key is missing because `exdir` is not even a
mapping), `is_nonraw_object_directory` raises a `TypeError` from
`TYPE_METANAME not in meta_data[EXDIR_METANAME]` instead of returning
false, refuting "for any malformed content ... it returns false without
raising any exception". -/
theorem C1_counterexample :
    is_nonraw_object_directory fsC1 ["d"] = .error .typeError ∧
    ¬ is_nonraw_object_directory fsC1 ["d"] = .ok false := by
  have he : is_nonraw_object_directory fsC1 ["d"] = .error .typeError :=
    @is_nonraw_eq_of_parsed fsC1 ["d"] (.map [("exdir", .int 5)]) rfl
  exact ⟨he, fun h => Except.noConfusion (he.symm.trans h)⟩

/-- Filesystem with a well-formed group object at `g`. -/
def fsW1 : FS :=
  { dirs := [["g"]],
    files := [(["g", "exdir.yaml"], .parsed (.map [("exdir", .map
      [("type", .str "group"), ("version", .int 1)])]))] }

/-- Filesystem with a bare directory `h` carrying no metadata. -/
def fsW1b : FS := { dirs := [["h"]], files := [] }

/-- C1 witness: the amended classification applied to a well-formed group
directory (true) and to a bare directory with no metadata (false). -/
theorem C1_witness :
    is_nonraw_object_directory fsW1 ["g"] = .ok true ∧
    is_nonraw_object_directory fsW1b ["h"] = .ok false := by
  refine ⟨?_, ?_⟩
  · exact (C1_is_nonraw_classification fsW1 ["g"]).1.mpr ⟨_, rfl, rfl⟩
  · exact (C1_is_nonraw_classification fsW1b ["h"]).2.1 rfl

/-
C2.
-/

theorem findFile_setFile_self (fs : FS) (p : Path) (c : FileData) :
    (fs.setFile p c).findFile p = some c := by
  simp [FS.findFile, FS.setFile, List.find?_cons]

/-- The metadata record `_create_object_directory` dumps for `typename`. -/
def createdMeta (typename : String) : Yaml :=
  .map [(EXDIR_METANAME, .map
    [(TYPE_METANAME, .str typename), (VERSION_METANAME, .int 1)])]

theorem metaClassify_createdMeta {t : String}
    (h : VALID_TYPENAMES.contains t = true) :
    metaClassify (createdMeta t) = .ok true := by
  have hmem : t ∈ VALID_TYPENAMES := by simpa using h
  simp only [VALID_TYPENAMES, DATASET_TYPENAME, FILE_TYPENAME, GROUP_TYPENAME,
    List.mem_cons, List.mem_singleton] at hmem
  rcases hmem with h1 | h1 | h1 | h1
  · subst h1; rfl
  · subst h1; rfl
  · subst h1; rfl
  · cases h1

/-- C2: `_create_object_directory` raises AlreadyExists when the directory
is present, raises InvalidType when (the directory is absent and) the
typename is not in `{dataset, file, group}`, and otherwise creates the
directory and writes the metadata record with the given type and
version 1, after which `is_nonraw_object_directory` holds; and a directory
that lacks the metadata file is classified unmanaged: false by
`is_nonraw_object_directory` and true by `is_raw_object_directory`. -/
theorem C2_create_object_directory (fs : FS) (d : Path) (t : String) (fs2 : FS) :
    (fs.pathExists d = true →
      _create_object_directory fs d t = .error .fileExists) ∧
    (fs.pathExists d = false → VALID_TYPENAMES.contains t = false →
      _create_object_directory fs d t = .error .valueErrorInvalidType) ∧
    (fs.pathExists d = false → VALID_TYPENAMES.contains t = true →
      _create_object_directory fs d t =
        .ok ((fs.mkdir d).setFile (_metafile_from_directory d) (.parsed (createdMeta t)))) ∧
    (VALID_TYPENAMES.contains t = true →
      _create_object_directory fs d t = .ok fs2 →
      fs2.findFile (_metafile_from_directory d) = some (.parsed (createdMeta t)) ∧
      is_nonraw_object_directory fs2 d = .ok true) ∧
    (fs.isDir d = true → fs.pathExists (d ++ [META_FILENAME]) = false →
      is_nonraw_object_directory fs d = .ok false ∧
      is_raw_object_directory fs d = .ok true) := by
  refine ⟨?_, ?_, ?_, ?_, ?_⟩
  · intro h
    simp [_create_object_directory, h]
  · intro h1 h2
    have h2m : t ∉ VALID_TYPENAMES := by simpa using h2
    simp [_create_object_directory, h1, h2m]
  · intro h1 h2
    have h2m : t ∈ VALID_TYPENAMES := by simpa using h2
    simp [_create_object_directory, h1, h2m, createdMeta]
  · intro hv hok
    have hvm : t ∈ VALID_TYPENAMES := by simpa using hv
    have h1 : fs.pathExists d = false := by
      by_contra hx
      have hx' : fs.pathExists d = true := by
        cases hp : fs.pathExists d
        · exact absurd hp hx
        · rfl
      simp [_create_object_directory, hx'] at hok
    have heq : fs2 = (fs.mkdir d).setFile (_metafile_from_directory d)
        (.parsed (createdMeta t)) := by
      simp [_create_object_directory, h1, hvm, createdMeta] at hok
      exact hok.symm
    subst heq
    have hff : ((fs.mkdir d).setFile (_metafile_from_directory d)
        (.parsed (createdMeta t))).findFile (d ++ [META_FILENAME]) =
        some (.parsed (createdMeta t)) :=
      findFile_setFile_self _ _ _
    refine ⟨hff, ?_⟩
    rw [is_nonraw_eq_of_parsed hff]
    exact metaClassify_createdMeta hv
  · intro hdir hmf
    have hn : is_nonraw_object_directory fs d = .ok false := by
      simp [is_nonraw_object_directory, hmf]
    refine ⟨hn, ?_⟩
    simp [is_raw_object_directory, is_exdir_object, hdir, hn, Except.map]

/-- Empty filesystem for the C2 witness. -/
def fsE : FS := { dirs := [], files := [] }

/-- The filesystem after creating a group object at `d` in `fsE`. -/
def fsE1 : FS :=
  { dirs := [["d"]],
    files := [(["d", "exdir.yaml"], .parsed (createdMeta "group"))] }

/-- Bare directory for the raw half of the C2 witness. -/
def fsRawW : FS := { dirs := [["r"]], files := [] }

/-- C2 witness: creating a group object in an empty store yields a managed
directory; re-creating it raises AlreadyExists; an invalid typename raises
InvalidType; and a bare directory is raw. -/
theorem C2_witness :
    _create_object_directory fsE ["d"] "group" = .ok fsE1 ∧
    is_nonraw_object_directory fsE1 ["d"] = .ok true ∧
    _create_object_directory fsE1 ["d"] "group" = .error .fileExists ∧
    _create_object_directory fsE ["e"] "banana" = .error .valueErrorInvalidType ∧
    is_nonraw_object_directory fsRawW ["r"] = .ok false ∧
    is_raw_object_directory fsRawW ["r"] = .ok true := by
  have hc := C2_create_object_directory fsE ["d"] "group" fsE1
  have h1 : _create_object_directory fsE ["d"] "group" = .ok fsE1 := by
    rw [hc.2.2.1 rfl rfl]; rfl
  have h2 := (hc.2.2.2.1 rfl h1).2
  have h3 : _create_object_directory fsE1 ["d"] "group" = .error .fileExists :=
    (C2_create_object_directory fsE1 ["d"] "group" fsE1).1 rfl
  have h4 : _create_object_directory fsE ["e"] "banana" = .error .valueErrorInvalidType :=
    (C2_create_object_directory fsE ["e"] "banana" fsE1).2.1 rfl rfl
  have h5 := (C2_create_object_directory fsRawW ["r"] "group" fsRawW).2.2.2.2 rfl rfl
  exact ⟨h1, h2, h3, h4, h5.1, h5.2⟩

/-
C3.
-/

theorem root_directory_nil (fs : FS) : root_directory fs [] = .ok none := by
  rw [root_directory]
  simp

theorem root_directory_step (fs : FS) (p : Path) (h : p ≠ []) :
    root_directory fs p =
      (match rootStep fs p with
       | .stop => .ok (some p)
       | .pass => root_directory fs p.dropLast
       | .err e => .error e) := by
  rw [root_directory]
  simp [h]

theorem root_directory_of_stop {fs : FS} {p : Path} (h : p ≠ [])
    (hs : rootStep fs p = .stop) : root_directory fs p = .ok (some p) := by
  rw [root_directory_step fs p h, hs]

theorem root_directory_of_pass {fs : FS} {p : Path} (h : p ≠ [])
    (hs : rootStep fs p = .pass) :
    root_directory fs p = root_directory fs p.dropLast := by
  rw [root_directory_step fs p h, hs]

theorem root_directory_of_err {fs : FS} {p : Path} {e : PyErr} (h : p ≠ [])
    (hs : rootStep fs p = .err e) : root_directory fs p = .error e := by
  rw [root_directory_step fs p h, hs]

/-- C3 (amended): started at `q ++ s` where the loop body stops at `q`
(a managed directory whose recorded type is `"file"`) and every directory
strictly below `q` on the chain makes the loop continue to its parent —
which is the case when its metadata is missing, parseable-but-invalid, or
of a non-file type, but NOT when the body raises, e.g. on unparsable
metadata (see the counterexample) — `root_directory` returns `q`, the
nearest such ancestor; and when every directory on the upward chain makes
the loop continue, it returns not-found exactly upon reaching the
filesystem root, where the parent equals the current directory. -/
theorem C3_root_directory_walk (fs : FS) (q s p : Path) :
    (rootStep fs q = .stop → q ≠ [] →
      (∀ n, n < s.length → rootStep fs (q ++ s.take (n + 1)) = .pass) →
      root_directory fs (q ++ s) = .ok (some q)) ∧
    ((∀ n, n < p.length → rootStep fs (p.take (n + 1)) = .pass) →
      root_directory fs p = .ok none) := by
  constructor
  · intro hstop hq
    induction s using List.reverseRecOn with
    | nil =>
      intro _
      rw [List.append_nil]
      exact root_directory_of_stop hq hstop
    | append_singleton l a ih =>
      intro hpass
      have hne : q ++ (l ++ [a]) ≠ [] := by simp
      have hfull : rootStep fs (q ++ (l ++ [a])) = .pass := by
        have h1 := hpass l.length (by simp)
        rwa [List.take_of_length_le (by simp)] at h1
      have hdrop : (q ++ (l ++ [a])).dropLast = q ++ l := by
        rw [← List.append_assoc, List.dropLast_concat]
      rw [root_directory_of_pass hne hfull, hdrop]
      exact ih (fun n hn => by
        have h1 := hpass n (by simp; omega)
        rwa [List.take_append_of_le_length (by omega)] at h1)
  · induction p using List.reverseRecOn with
    | nil =>
      intro _
      exact root_directory_nil fs
    | append_singleton l a ih =>
      intro hpass
      have hne : l ++ [a] ≠ [] := by simp
      have hfull : rootStep fs (l ++ [a]) = .pass := by
        have h1 := hpass l.length (by simp)
        rwa [List.take_of_length_le (by simp)] at h1
      rw [root_directory_of_pass hne hfull, List.dropLast_concat]
      exact ih (fun n hn => by
        have h1 := hpass n (by simp; omega)
        rwa [List.take_append_of_le_length (by omega)] at h1)

/-- Filesystem for the C3 counterexample: `r` is a managed `"file"`-typed
store root; its child `r/a` carries metadata that parses to `{exdir: 5}` —
malformed, and the walk raises on it instead of passing. -/
def fsC3 : FS :=
  { dirs := [["r"], ["r", "a"]],
    files := [(["r", "exdir.yaml"], .parsed (.map [("exdir", .map
        [("type", .str "file"), ("version", .int 1)])])),
      (["r", "a", "exdir.yaml"], .parsed (.map [("exdir", .int 5)]))] }

/-- C3 counterexample: `r` is a `"file"`-typed directory (the walk started
there succeeds), but starting at `r/a`, whose own metadata is malformed
(`{exdir: 5}`), the walk raises a `TypeError` instead of walking past the
malformed intermediate up to `r`, refuting "walking past any intermediate
directory whose metadata is missing, malformed, or of a non-file type". -/
theorem C3_counterexample :
    rootStep fsC3 ["r"] = .stop ∧
    root_directory fsC3 ["r"] = .ok (some ["r"]) ∧
    root_directory fsC3 ["r", "a"] = .error .typeError ∧
    ¬ root_directory fsC3 ["r", "a"] = .ok (some ["r"]) := by
  have h1 : rootStep fsC3 ["r"] = .stop := rfl
  have h2 : root_directory fsC3 ["r"] = .ok (some ["r"]) :=
    root_directory_of_stop (by simp) h1
  have h3 : root_directory fsC3 ["r", "a"] = .error .typeError :=
    root_directory_of_err (by simp) rfl
  exact ⟨h1, h2, h3, fun h => Except.noConfusion (h3.symm.trans h)⟩

/-- Filesystem for the C3 witness: a `"file"`-typed root at `r` with bare
(metadata-free) descendants `r/x` and `r/x/y`. -/
def fsW3 : FS :=
  { dirs := [["r"], ["r", "x"], ["r", "x", "y"]],
    files := [(["r", "exdir.yaml"], .parsed (.map [("exdir", .map
      [("type", .str "file"), ("version", .int 1)])]))] }

/-- C3 witness: from deep below the `"file"`-typed root the walk returns
that root, and from a chain with no such ancestor it reports not-found. -/
theorem C3_witness :
    root_directory fsW3 ["r", "x", "y"] = .ok (some ["r"]) ∧
    root_directory fsW3 ["z", "w"] = .ok none := by
  constructor
  · exact (C3_root_directory_walk fsW3 ["r"] ["x", "y"] []).1 rfl (by simp)
      (fun n hn => by
        simp only [List.length_cons, List.length_nil] at hn
        interval_cases n <;> rfl)
  · exact (C3_root_directory_walk fsW3 [] [] ["z", "w"]).2
      (fun n hn => by
        simp only [List.length_cons, List.length_nil] at hn
        interval_cases n <;> rfl)

/-
C4.
-/

/-- A group-like object at `R/p/g` (root `R`, parent path `p`, name `g`)
whose name-validation policy accepts everything. -/
def objG : Object :=
  { root_directory := ["R"], parent_path := ["p"], object_name := "g",
    io_mode := .READ_WRITE, validate := fun _ _ => true }

/-- Filesystem holding the store above, before any raw directory exists. -/
def fsG : FS := { dirs := [["R"], ["R", "p"], ["R", "p", "g"]], files := [] }

/-- `fsG` after `create_raw` makes the directory `R/p/g/blob`. -/
def fsG2 : FS :=
  { dirs := [["R", "p", "g", "blob"], ["R"], ["R", "p"], ["R", "p", "g"]],
    files := [] }

/-- The `Raw` handle the source actually returns: built from
`self.parent_path` (not `self.relative_path`), so it is bound to
`R/p/blob`. -/
def rawG : Raw :=
  { root_directory := ["R"], parent_path := ["p"], object_name := "blob",
    io_mode := .READ_WRITE }

/-- C4: code-bug demonstration.  `create_raw` on the object at `R/p/g`
creates the directory `R/p/g/blob` but returns a handle bound to
`R/p/blob` — a directory that does not even exist — because the source
passes `self.parent_path` instead of `self.relative_path` to `Raw`.
Consequently the first `require_raw` call returns that misbound handle
while the second returns the path of the directory actually created, so
the two calls do not refer to the same directory, contradicting the
claim that the handle is bound to the created directory. -/
theorem C4_create_raw_wrong_binding :
    create_raw fsG objG "blob" = .ok (fsG2, rawG) ∧
    fsG2.isDir ["R", "p", "g", "blob"] = true ∧
    rawG.directory = ["R", "p", "blob"] ∧
    ¬ rawG.directory = ["R", "p", "g", "blob"] ∧
    fsG2.isDir rawG.directory = false ∧
    require_raw fsG objG "blob" = .ok (fsG2, .handle rawG) ∧
    require_raw fsG2 objG "blob" = .ok (fsG2, .path ["R", "p", "g", "blob"]) := by
  refine ⟨rfl, rfl, rfl, ?_, rfl, rfl, rfl⟩
  decide

/-
C5.
-/

theorem dataset_setitem_payloadGen (plugins : List Plugin) (st : DState)
    (sel : Sel) (value : PyValue) :
    (dataset_setitem plugins st sel value).1.payloadGen = st.payloadGen := by
  unfold dataset_setitem
  split
  · rfl
  · rcases h : arraySet st.payload sel (asarray (_prepare_write plugins value).1)
      with _ | p2 <;> simp [h]

/-- Dataset of the C5 end-to-end scenario: created with `[[1, 2], [3, 4]]`. -/
def stA : DState :=
  { name := "/a", io_mode := .READ_WRITE, attrs := [], metaPlugins := [],
    payload := { shape := [2, 2], data := [.int 1, .int 2, .int 3, .int 4] },
    payloadGen := 0 }

/-- The reassigned array `[[1, 2, 3]]` of shape `(1, 3)`. -/
def arrB : NDArray := { shape := [1, 3], data := [.int 1, .int 2, .int 3] }

/-- The dataset state after `ds.value = [[1, 2, 3]]`: payload rewritten
(generation bumped), new shape `(1, 3)`. -/
def stA2 : DState :=
  { name := "/a", io_mode := .READ_WRITE, attrs := [], metaPlugins := [],
    payload := { shape := [1, 3], data := [.int 1, .int 2, .int 3] },
    payloadGen := 1 }

/-- C5: whole-dataset reassignment `ds.value = newArray` compares shapes:
when they differ it is exactly `_reset_data` — the payload file is
replaced (generation bump) and its new content is the pipeline output
written from scratch — and when they are equal it delegates to the
in-place write `self[:] = value`, which never replaces the payload file
(generation unchanged).  The end-to-end scenario: on the dataset created
with `[[1, 2], [3, 4]]`, assigning `[[1, 2, 3]]` rewrites the payload,
after which `ds.shape = (1, 3)` and `ds[0, 1] = 2` (a 0-d array holding
2). -/
theorem C5_value_reassignment (plugins : List Plugin) (st : DState) (a : NDArray) :
    (st.payload.shape ≠ a.shape →
      dataset_value_set plugins st (.arr a) = _reset_data plugins st (.arr a) ∧
      (dataset_value_set plugins st (.arr a)).2 = none ∧
      (dataset_value_set plugins st (.arr a)).1.payloadGen = st.payloadGen + 1 ∧
      (dataset_value_set plugins st (.arr a)).1.payload =
        asarray (_prepare_write plugins (.arr a)).1) ∧
    (st.payload.shape = a.shape →
      dataset_value_set plugins st (.arr a) = dataset_setitem plugins st .all (.arr a) ∧
      (dataset_value_set plugins st (.arr a)).1.payloadGen = st.payloadGen) ∧
    (dataset_value_set [] stA (.arr arrB) = (stA2, none) ∧
      dataset_shape [] stA2 = .ok [1, 3] ∧
      dataset_getitem [] stA2 (.pair 0 1) = .ok (.arr { shape := [], data := [.int 2] })) := by
  refine ⟨?_, ?_, rfl, rfl, rfl⟩
  · intro h
    have hv : dataset_value_set plugins st (.arr a) = _reset_data plugins st (.arr a) := by
      simp [dataset_value_set, PyValue.shapeAttr, h]
    exact ⟨hv, by rw [hv]; rfl, by rw [hv]; rfl, by rw [hv]; rfl⟩
  · intro h
    have hv : dataset_value_set plugins st (.arr a) =
        dataset_setitem plugins st .all (.arr a) := by
      simp [dataset_value_set, PyValue.shapeAttr, h]
    exact ⟨hv, by rw [hv]; exact dataset_setitem_payloadGen plugins st .all (.arr a)⟩

/-- A shape-preserving reassignment target for the C5 witness. -/
def arrC : NDArray := { shape := [2, 2], data := [.int 5, .int 6, .int 7, .int 8] }

/-- C5 witness: the two branches of the reassignment at concrete inputs —
a shape-changing assignment goes through `_reset_data` and bumps the
payload generation, a shape-preserving one delegates to the in-place
write and keeps it. -/
theorem C5_witness :
    dataset_value_set [] stA (.arr arrB) = _reset_data [] stA (.arr arrB) ∧
    (dataset_value_set [] stA (.arr arrB)).1.payloadGen = 1 ∧
    dataset_value_set [] stA (.arr arrC) = dataset_setitem [] stA .all (.arr arrC) ∧
    (dataset_value_set [] stA (.arr arrC)).1.payloadGen = 0 := by
  have h1 := (C5_value_reassignment [] stA arrB).1 (by decide)
  have h2 := (C5_value_reassignment [] stA arrC).2.1 (by decide)
  exact ⟨h1.1, h1.2.2.1, h2.1, h2.2⟩

/-
C6.
-/

/-- C6: an indexed write on a READ_ONLY dataset raises the read-only
`IOError` for every selector and every value, under every plugin registry
(the result does not depend on the registry, so no plugin hook can have
run), and the returned state is the input state unchanged — attribute
sidecar, metadata sidecar and payload all untouched. -/
theorem C6_read_only_guard (plugins : List Plugin) (st : DState) (sel : Sel)
    (value : PyValue) (h : st.io_mode = .READ_ONLY) :
    dataset_setitem plugins st sel value = (st, some .readOnly) := by
  simp [dataset_setitem, h]

/-- A READ_ONLY dataset handle for the C6 witness. -/
def stRO : DState :=
  { name := "/b", io_mode := .READ_ONLY, attrs := [("keep", .int 1)],
    metaPlugins := [], payload := { shape := [2], data := [.int 1, .int 2] },
    payloadGen := 0 }

/-- C6 witness: a concrete write attempt on a READ_ONLY dataset returns
the untouched state and the read-only error. -/
theorem C6_witness :
    dataset_setitem [] stRO (.idx 0) (.num 9) = (stRO, some .readOnly) :=
  C6_read_only_guard [] stRO (.idx 0) (.num 9) rfl

/-
C7.
-/

/-- C7: for a rank-0 dataset (zero-dimensional payload, whose full-range
read yields a value of empty shape), `len` raises the scalar-length
`TypeError`, iteration raises the scalar-iteration `TypeError`, and an
indexed read returns the same scalar value for every selector, ignoring
the selector; for a dataset whose read shape is `n :: rest`, `len` is the
first-axis extent `n` and iteration yields one independent read `self[i]`
per index of the first axis. -/
theorem C7_scalar_guards (plugins : List Plugin) (st : DState) (v : PyValue) :
    (dataset_getitem plugins st .all = .ok v → v.shapeAttr = some [] →
      st.payload.shape = [] →
      dataset_len plugins st = .error .scalarLength ∧
      dataset_iter plugins st = .error .scalarIteration ∧
      ∀ sel, dataset_getitem plugins st sel = .ok v) ∧
    (∀ n rest, dataset_getitem plugins st .all = .ok v →
      v.shapeAttr = some (n :: rest) →
      dataset_len plugins st = .ok n ∧
      dataset_iter plugins st =
        .ok ((List.range n).map (fun i => dataset_getitem plugins st (.idx i)))) := by
  constructor
  · intro hget hshape hpay
    have hs : dataset_shape plugins st = .ok [] := by
      simp [dataset_shape, hget, hshape]
    refine ⟨?_, ?_, ?_⟩
    · simp [dataset_len, hs]
    · simp [dataset_iter, hs]
    · intro sel
      have hsel : selectStep st sel = .ok (.arr st.payload) := by
        simp [selectStep, hpay]
      have hall : selectStep st .all = .ok (.arr st.payload) := by
        simp [selectStep, hpay]
      rw [dataset_getitem, hsel]
      rw [dataset_getitem, hall] at hget
      exact hget
  · intro n rest hget hshape
    have hs : dataset_shape plugins st = .ok (n :: rest) := by
      simp [dataset_shape, hget, hshape]
    exact ⟨by simp [dataset_len, hs], by simp [dataset_iter, hs]⟩

/-- A rank-0 dataset holding the scalar 7, with no plugins recorded. -/
def stS : DState :=
  { name := "/s", io_mode := .READ_WRITE, attrs := [], metaPlugins := [],
    payload := { shape := [], data := [.int 7] }, payloadGen := 0 }

/-- A rank-2 dataset `[[1, 2], [3, 4]]` for the iteration half. -/
def stT : DState :=
  { name := "/t", io_mode := .READ_WRITE, attrs := [], metaPlugins := [],
    payload := { shape := [2, 2], data := [.int 1, .int 2, .int 3, .int 4] },
    payloadGen := 0 }

/-- C7 witness: concrete scalar dataset — `len` and iteration raise and
an arbitrary selector returns the scalar; concrete rank-2 dataset —
`len` is 2 and iteration yields the two row reads. -/
theorem C7_witness :
    dataset_len [] stS = .error .scalarLength ∧
    dataset_iter [] stS = .error .scalarIteration ∧
    dataset_getitem [] stS (.idx 5) = .ok (.arr { shape := [], data := [.int 7] }) ∧
    dataset_len [] stT = .ok 2 ∧
    dataset_iter [] stT = .ok
      [.ok (.arr { shape := [2], data := [.int 1, .int 2] }),
       .ok (.arr { shape := [2], data := [.int 3, .int 4] })] := by
  have h1 := (C7_scalar_guards [] stS (.arr { shape := [], data := [.int 7] })).1
    rfl rfl rfl
  have h2 := (C7_scalar_guards [] stT
    (.arr { shape := [2, 2], data := [.int 1, .int 2, .int 3, .int 4] })).2
    2 [2] rfl rfl
  refine ⟨h1.1, h1.2.1, h1.2.2 (.idx 5), h2.1, ?_⟩
  rw [h2.2]
  rfl

/-
C8.
-/

theorem prepLoop_fst (plugins : List Plugin) (v : PyValue)
    (a : List (String × Yaml)) (m : List (String × PluginMeta)) :
    (prepLoop plugins v a m).1 = pipelineValue plugins v := by
  induction plugins generalizing v a m with
  | nil => rfl
  | cons p ps ih => simp only [prepLoop, pipelineValue]; exact ih _ _ _

theorem _prepare_write_eq (plugins : List Plugin) (v : PyValue) :
    _prepare_write plugins v =
      (normalizeScalar (prepLoop plugins v [] []).1,
       (prepLoop plugins v [] []).2.1, (prepLoop plugins v [] []).2.2) := by
  unfold _prepare_write normalizeScalar
  cases h : (prepLoop plugins v [] []).1.isScalarTupleStr <;> simp [h]

/-- C8 (amended): the scalar/tuple/text normalization sits after the
plugin pipeline, not before it: `_prepare_write`'s data result is the
plugins' pipeline output, normalized to a row-major array only if it is
still a scalar number, tuple or text once every plugin has run; and the
first plugin's `prepare_write` hook receives the original, unnormalized
value. -/
theorem C8_normalization_after_pipeline (plugins : List Plugin) (data : PyValue) :
    (_prepare_write plugins data).1 = normalizeScalar (pipelineValue plugins data) ∧
    (∀ p ps, pipelineValue (p :: ps) data = pipelineValue ps (p.prepare_write data).1) := by
  constructor
  · rw [_prepare_write_eq, prepLoop_fst]
  · intro p ps
    rfl

/-- The probe plugin of the C8 counterexample: its write hook reports what
kind of value it received — `"sawArray"` for an ndarray, `"sawRaw"` for
anything else — and requires nothing. -/
def probePlugin : Plugin :=
  { IDENTIFIER := "probe",
    prepare_write := fun v =>
      match v with
      | .arr _ => (.txt "sawArray", [], { required := false, payload := [] })
      | _ => (.txt "sawRaw", [], { required := false, payload := [] }),
    prepare_read := fun v _ => v }

/-- C8 counterexample: on the scalar input 5 with the probe plugin
registered, the source `_prepare_write` hands the raw scalar to the first
plugin (which reports `"sawRaw"`, then the result is normalized), whereas
the spec's claimed order — normalize before the first plugin — would make
the plugin report `"sawArray"`; the two disagree at this input, refuting
"the value is normalized to a row-major array before the first plugin's
prepare_write hook sees it". -/
theorem C8_counterexample :
    (_prepare_write [probePlugin] (.num 5)).1 =
      .arr { shape := [], data := [.str "sawRaw"] } ∧
    (_prepare_write_normFirst [probePlugin] (.num 5)).1 = .txt "sawArray" ∧
    ¬ (_prepare_write [probePlugin] (.num 5)).1 =
      (_prepare_write_normFirst [probePlugin] (.num 5)).1 := by
  exact ⟨rfl, rfl, by decide⟩

/-
C9.
-/

theorem any_key_map_set {α : Type} (xs : List (String × α)) (k0 k : String) (v0 : α) :
    (xs.map (fun kv => if kv.1 == k0 then (k0, v0) else kv)).any
        (fun kv => kv.1 == k) =
      xs.any (fun kv => kv.1 == k) := by
  induction xs with
  | nil => rfl
  | cons kv rest ih =>
    simp only [List.map_cons, List.any_cons, ih]
    cases h : kv.1 == k0 with
    | false => simp [h]
    | true =>
      have heq : kv.1 = k0 := by simpa using h
      simp [h, heq]

theorem assocHasKey_assocSet {α : Type} (xs : List (String × α)) (k0 k : String)
    (v0 : α) :
    assocHasKey (assocSet xs k0 v0) k = (assocHasKey xs k || (k0 == k)) := by
  simp only [assocSet, assocHasKey]
  cases h : xs.any (fun kv => kv.1 == k0) with
  | false =>
    simp only [Bool.false_eq_true, if_false, List.any_append, List.any_cons,
      List.any_nil, Bool.or_false]
  | true =>
    simp only [if_true, any_key_map_set]
    cases hk : k0 == k with
    | false => simp
    | true =>
      have heq : k0 = k := by simpa using hk
      subst heq
      simp [h]

theorem prepLoop_meta_hasKey (plugins : List Plugin) (v : PyValue)
    (a : List (String × Yaml)) (m : List (String × PluginMeta)) (k : String) :
    assocHasKey (prepLoop plugins v a m).2.2 k =
      (assocHasKey m k || pluginWrites plugins v k) := by
  induction plugins generalizing v a m with
  | nil => simp [prepLoop, pluginWrites]
  | cons p ps ih =>
    simp only [prepLoop, pluginWrites]
    rw [ih]
    cases hreq : (p.prepare_write v).2.2.required with
    | false => simp [hreq]
    | true =>
      simp only [hreq, if_true, assocHasKey_assocSet, Bool.and_true]
      rw [Bool.or_assoc]

theorem _prepare_write_meta (plugins : List Plugin) (v : PyValue) :
    (_prepare_write plugins v).2.2 = (prepLoop plugins v [] []).2.2 := by
  rw [_prepare_write_eq]

theorem _prepare_write_attrs (plugins : List Plugin) (v : PyValue) :
    (_prepare_write plugins v).2.1 = (prepLoop plugins v [] []).2.1 := by
  rw [_prepare_write_eq]

theorem pluginCheckStep_eq (plugins : List Plugin) (st : DState) :
    pluginCheckStep plugins st =
      (match st.metaPlugins.find?
          (fun kv => !((plugins.map (fun p => p.IDENTIFIER)).contains kv.1)) with
       | some kv => some (.pluginMissing kv.1 st.name)
       | none => none) := rfl

theorem pluginCheckStep_isSome_iff (plugins : List Plugin) (st : DState) :
    (pluginCheckStep plugins st).isSome = true ↔
      ∃ k, assocHasKey st.metaPlugins k = true ∧
        (plugins.map (fun p => p.IDENTIFIER)).contains k = false := by
  rw [pluginCheckStep_eq]
  cases hfind : st.metaPlugins.find?
      (fun kv => !((plugins.map (fun p => p.IDENTIFIER)).contains kv.1)) with
  | none =>
    simp only [Option.isSome_none, Bool.false_eq_true, false_iff]
    rintro ⟨k, hk, hnc⟩
    obtain ⟨kv, hmem, hkv⟩ := List.any_eq_true.mp hk
    have hcont := List.find?_eq_none.mp hfind kv hmem
    have heq : kv.1 = k := by simpa using hkv
    rw [heq, hnc] at hcont
    simp at hcont
  | some kv =>
    simp only [Option.isSome_some, true_iff]
    refine ⟨kv.1, ?_, ?_⟩
    · have hmem := List.mem_of_find?_eq_some hfind
      exact List.any_eq_true.mpr ⟨kv, hmem, by simp⟩
    · have hp := List.find?_some hfind
      simpa using hp

theorem pluginCheckStep_shape (plugins : List Plugin) (st : DState) :
    pluginCheckStep plugins st = none ∨
      ∃ k, pluginCheckStep plugins st = some (.pluginMissing k st.name) := by
  rw [pluginCheckStep_eq]
  cases hfind : st.metaPlugins.find?
      (fun kv => !((plugins.map (fun p => p.IDENTIFIER)).contains kv.1)) with
  | none => exact Or.inl rfl
  | some kv => exact Or.inr ⟨kv.1, rfl⟩

/-- C9: given that the selection stage succeeds, a dataset read fails with
the missing-plugin error — naming a plugin and this dataset — exactly when
some plugin identifier recorded in the dataset's `meta["plugins"]` is not
among the registered plugin identifiers; and on the write side the
recorded identifiers are exactly those of plugins whose hook declared
`required = true` on this write, so a plugin reporting `required = false`
never has its identifier persisted and its later absence never triggers
the error. -/
theorem C9_plugin_availability (plugins : List Plugin) (st : DState) (sel : Sel)
    (w : PyValue) (hsel : selectStep st sel = .ok w) :
    ((∃ p, dataset_getitem plugins st sel = .error (.pluginMissing p st.name)) ↔
      ∃ k, assocHasKey st.metaPlugins k = true ∧
        (plugins.map (fun p => p.IDENTIFIER)).contains k = false) ∧
    (∀ v k, assocHasKey ((_prepare_write plugins v).2.2) k =
      pluginWrites plugins v k) := by
  constructor
  · constructor
    · rintro ⟨p, hp⟩
      rw [dataset_getitem, hsel] at hp
      apply (pluginCheckStep_isSome_iff plugins st).mp
      cases hchk : pluginCheckStep plugins st with
      | none => rw [hchk] at hp; cases hp
      | some e => rfl
    · intro hex
      have hs := (pluginCheckStep_isSome_iff plugins st).mpr hex
      rcases pluginCheckStep_shape plugins st with hnone | ⟨k, hsome⟩
      · rw [hnone] at hs; cases hs
      · exact ⟨k, by rw [dataset_getitem, hsel, hsome]⟩
  · intro v k
    rw [_prepare_write_meta, prepLoop_meta_hasKey]
    simp [assocHasKey]

/-- A dataset whose metadata records the plugin `"ghost"`, which is not
registered. -/
def stM : DState :=
  { name := "/m", io_mode := .READ_WRITE, attrs := [],
    metaPlugins := [("ghost", { required := true, payload := [] })],
    payload := { shape := [2], data := [.int 1, .int 2] }, payloadGen := 0 }

/-- A plugin that reports `required = false` on every write. -/
def notReqPlugin : Plugin :=
  { IDENTIFIER := "nr",
    prepare_write := fun v => (v, [], { required := false, payload := [] }),
    prepare_read := fun v _ => v }

/-- C9 witness: reading a dataset that records the unregistered plugin
`"ghost"` fails with the missing-plugin error naming it and the dataset,
and a registered plugin reporting `required = false` leaves no record in
the persisted plugin metadata. -/
theorem C9_witness :
    dataset_getitem [] stM .all = .error (.pluginMissing "ghost" "/m") ∧
    assocHasKey ((_prepare_write [notReqPlugin] (.num 1)).2.2) "nr" = false := by
  have h1 := C9_plugin_availability [] stM .all (.arr stM.payload) rfl
  have h2 := C9_plugin_availability [notReqPlugin] stM .all (.arr stM.payload) rfl
  refine ⟨?_, ?_⟩
  · obtain ⟨p, hp⟩ := h1.1.mpr ⟨"ghost", rfl, rfl⟩
    exact rfl
  · rw [h2.2 (.num 1) "nr"]
    rfl

/-
C10.
-/

theorem assocHasKey_assocUpdate_of {α : Type} (old upd : List (String × α))
    (k : String) (h : assocHasKey old k = true) :
    assocHasKey (assocUpdate old upd) k = true := by
  induction upd generalizing old with
  | nil => exact h
  | cons kv rest ih =>
    simp only [assocUpdate, List.foldl_cons]
    exact ih (assocSet old kv.1 kv.2) (by rw [assocHasKey_assocSet]; simp [h])

/-- C10: a write through `__setitem__` (in READ_WRITE mode) or through
`_reset_data` replaces the dataset's `meta["plugins"]` record wholesale
with the `meta` dict computed by `_prepare_write` on this write — whose
keys are exactly the identifiers of currently registered plugins that
declared `required = true` here, so records persisted by earlier writes
under other identifiers are removed — while plugin-contributed attributes
are merged into the attribute sidecar without removing existing keys. -/
theorem C10_write_replaces_plugin_records (plugins : List Plugin) (st : DState)
    (sel : Sel) (value : PyValue) (h : ¬ st.io_mode = .READ_ONLY) :
    ((dataset_setitem plugins st sel value).1.metaPlugins =
      (_prepare_write plugins value).2.2) ∧
    (∀ k, assocHasKey (dataset_setitem plugins st sel value).1.metaPlugins k =
      pluginWrites plugins value k) ∧
    ((dataset_setitem plugins st sel value).1.attrs =
      assocUpdate st.attrs (_prepare_write plugins value).2.1) ∧
    (∀ k, assocHasKey st.attrs k = true →
      assocHasKey (dataset_setitem plugins st sel value).1.attrs k = true) ∧
    ((_reset_data plugins st value).2 = none) ∧
    ((_reset_data plugins st value).1.metaPlugins = (_prepare_write plugins value).2.2) ∧
    (∀ k, assocHasKey (_reset_data plugins st value).1.metaPlugins k =
      pluginWrites plugins value k) ∧
    (∀ k, assocHasKey st.attrs k = true →
      assocHasKey (_reset_data plugins st value).1.attrs k = true) := by
  have hkeys : ∀ k, assocHasKey ((_prepare_write plugins value).2.2) k =
      pluginWrites plugins value k := by
    intro k
    rw [_prepare_write_meta, prepLoop_meta_hasKey]
    simp [assocHasKey]
  have hmeta : (dataset_setitem plugins st sel value).1.metaPlugins =
      (_prepare_write plugins value).2.2 := by
    unfold dataset_setitem
    rw [if_neg h]
    rcases harr : arraySet st.payload sel (asarray (_prepare_write plugins value).1)
      with _ | p2 <;> simp [harr]
  have hattrs : (dataset_setitem plugins st sel value).1.attrs =
      assocUpdate st.attrs (_prepare_write plugins value).2.1 := by
    unfold dataset_setitem
    rw [if_neg h]
    rcases harr : arraySet st.payload sel (asarray (_prepare_write plugins value).1)
      with _ | p2 <;> simp [harr]
  refine ⟨hmeta, ?_, hattrs, ?_, rfl, rfl, ?_, ?_⟩
  · intro k; rw [hmeta]; exact hkeys k
  · intro k hk; rw [hattrs]; exact assocHasKey_assocUpdate_of _ _ k hk
  · intro k; exact hkeys k
  · intro k hk; exact assocHasKey_assocUpdate_of _ _ k hk

/-- A plugin that reports `required = true` and contributes the attribute
`b`. -/
def reqPlugin : Plugin :=
  { IDENTIFIER := "req",
    prepare_write := fun v => (v, [("b", .int 2)], { required := true, payload := [] }),
    prepare_read := fun v _ => v }

/-- A dataset carrying a stale plugin record `"old"` and a user attribute
`a` from before this write. -/
def stOld : DState :=
  { name := "/w", io_mode := .READ_WRITE, attrs := [("a", .int 1)],
    metaPlugins := [("old", { required := true, payload := [] })],
    payload := { shape := [2], data := [.int 1, .int 2] }, payloadGen := 0 }

/-- C10 witness: after a concrete write with the required plugin `req`,
the stale record `old` is gone, `req` is recorded, and both the
pre-existing attribute `a` and the contributed attribute `b` are present. -/
theorem C10_witness :
    assocHasKey (dataset_setitem [reqPlugin] stOld .all (.num 3)).1.metaPlugins "old"
      = false ∧
    assocHasKey (dataset_setitem [reqPlugin] stOld .all (.num 3)).1.metaPlugins "req"
      = true ∧
    assocHasKey (dataset_setitem [reqPlugin] stOld .all (.num 3)).1.attrs "a" = true ∧
    assocHasKey (dataset_setitem [reqPlugin] stOld .all (.num 3)).1.attrs "b" = true := by
  have h := C10_write_replaces_plugin_records [reqPlugin] stOld .all (.num 3)
    (by decide)
  refine ⟨?_, ?_, ?_, ?_⟩
  · rw [h.2.1 "old"]; rfl
  · rw [h.2.1 "req"]; rfl
  · exact h.2.2.2.1 "a" rfl
  · rw [h.2.2.1]; rfl

end Exdir
